import Mathlib

/-!
Verification of the Covey.Town RPS (rock-paper-scissors) contest subsystem:
a shallow embedding of the `RPS` game class, the `TownController` contest and
roster handlers, and the leaderboard projection, with theorems settling the
specification's claims about them.
-/

/-- The three discrete RPS choices (the `Answer` enum referenced by `RPS`). -/
inductive Answer where
  | rock
  | paper
  | scissors
deriving DecidableEq

/-- The `GameStatus` enum of `townService/src/town/RPS/GameStatus.ts` and the
frontend `RPS` variant: a game is new, started, or finished. -/
inductive GameStatus where
  | fresh
  | started
  | finished
deriving DecidableEq

/-- The `RPSResult` type: winner and loser ids plus an optional `draw` flag
(`draw?: boolean` in the source is present only on draws, so it is an
`Option Bool` here, `some true` when set and `none` when absent). -/
structure RPSResult where
  winner : String
  loser : String
  draw : Option Bool
deriving DecidableEq

/-- The `RPSPlayerMove` message payload: the submitting player's id, the
opponent's id, and the chosen move. -/
structure RPSPlayerMove where
  player : String
  opponent : String
  move : Answer
deriving DecidableEq

/-- The `RPSChallenge` payload: challenger and challengee ids and the
tri-state optional-boolean response flag. -/
structure RPSChallenge where
  challenger : String
  challengee : String
  response : Option Bool
deriving DecidableEq

/-- The data of the `RPS` class (`src/unnamed/part_005`): the two ordered
participant ids, each participant's optional submitted move, and the optional
cached winner. -/
structure RPS where
  playerOne : String
  playerTwo : String
  playerOneMove : Option Answer
  playerTwoMove : Option Answer
  winner : Option String
deriving DecidableEq

/-- The `RPS` constructor: binds the two participant ids; both move slots and
the winner start undefined. -/
def RPS.create (p1 p2 : String) : RPS :=
  { playerOne := p1, playerTwo := p2, playerOneMove := none,
    playerTwoMove := none, winner := none }

/-- `RPS.readyToComplete`: true iff both players have made their moves
(`_playerOneMove !== undefined && _playerTwoMove !== undefined`). -/
def RPS.readyToComplete (s : RPS) : Bool :=
  s.playerOneMove.isSome && s.playerTwoMove.isSome

/-- `RPS.calculateWinnerFromMoves` (`src/unnamed/part_005`, lines 75-109):
if the two (optional) move slots compare equal the result is a draw naming
player one as winner and player two as loser; otherwise `playerWon` starts as
the empty string and is assigned by the nested branch structure of the source,
and the loser is whichever participant `playerWon` is not. -/
def RPS.calculateWinnerFromMoves (s : RPS) : RPSResult :=
  if s.playerOneMove = s.playerTwoMove then
    { winner := s.playerOne, loser := s.playerTwo, draw := some true }
  else
    let playerWon :=
      if s.playerOneMove = some Answer.rock then
        if s.playerTwoMove = some Answer.paper then s.playerTwo else s.playerOne
      else if s.playerOneMove = some Answer.paper then
        if s.playerTwoMove = some Answer.rock then s.playerOne else s.playerTwo
      else
        if s.playerTwoMove = some Answer.rock then s.playerTwo
        else if s.playerTwoMove = some Answer.paper then s.playerOne
        else ""
    { winner := playerWon,
      loser := if s.playerOne = playerWon then s.playerTwo else s.playerOne,
      draw := none }

/-- `RPS.updateFrom` (`src/unnamed/part_005`, lines 115-122): if the message's
player is player one, overwrite player one's move slot; otherwise if it is
player two, overwrite player two's slot; otherwise leave the game unchanged. -/
def RPS.updateFrom (s : RPS) (m : RPSPlayerMove) : RPS :=
  if m.player = s.playerOne then { s with playerOneMove := some m.move }
  else if m.player = s.playerTwo then { s with playerTwoMove := some m.move }
  else s

/-- The `DRAW` sentinel string of the frontend `RPS` variant. -/
def DRAW : String := "draw"

/-- The data of the frontend `RPS` variant (`src/frontend/src/classes/RPS.ts`),
which additionally tracks a `GameStatus`. -/
structure FRPS where
  status : GameStatus
  playerOne : String
  playerTwo : String
  playerOneMove : Option Answer
  playerTwoMove : Option Answer
  winner : Option String
deriving DecidableEq

/-- `calculateWinnerFromMoves` of the frontend `RPS` variant
(`src/frontend/src/classes/RPS.ts`, lines 105-145): `playerWon` is computed by
the nested branch structure using the `DRAW` sentinel; a draw returns player
one as winner and player two as loser with the draw flag, and otherwise the
status is set to finished and the winner/loser pair is returned. The updated
game is the first component, the returned result the second. -/
def FRPS.calculateWinnerFromMoves (s : FRPS) : FRPS × RPSResult :=
  let playerWon :=
    if s.playerOneMove = some Answer.rock then
      if s.playerTwoMove = some Answer.rock then DRAW
      else if s.playerTwoMove = some Answer.paper then s.playerTwo
      else s.playerOne
    else if s.playerOneMove = some Answer.paper then
      if s.playerTwoMove = some Answer.rock then s.playerOne
      else if s.playerTwoMove = some Answer.paper then DRAW
      else s.playerTwo
    else
      if s.playerTwoMove = some Answer.rock then s.playerTwo
      else if s.playerTwoMove = some Answer.paper then s.playerOne
      else DRAW
  if playerWon = DRAW then
    (s, { winner := s.playerOne, loser := s.playerTwo, draw := some true })
  else
    ({ s with status := GameStatus.finished },
     { winner := playerWon,
       loser := if s.playerOne = playerWon then s.playerTwo else s.playerOne,
       draw := none })

/-- `selectMove` of the frontend `RPS` variant
(`src/frontend/src/classes/RPS.ts`, lines 91-97): if the submitting player is
player one their slot is overwritten, otherwise if player two that slot is
overwritten, otherwise nothing changes. -/
def FRPS.selectMove (s : FRPS) (player : String) (move : Answer) : FRPS :=
  if s.playerOne = player then { s with playerOneMove := some move }
  else if s.playerTwo = player then { s with playerTwoMove := some move }
  else s

/-- The spec's cyclic dominance relation (§4.1): Rock beats Scissors,
Scissors beats Paper, Paper beats Rock. -/
def beats (a b : Answer) : Bool :=
  match a, b with
  | Answer.rock, Answer.scissors => true
  | Answer.scissors, Answer.paper => true
  | Answer.paper, Answer.rock => true
  | _, _ => false

/-- C10: On a freshly created game (both move slots undefined),
`calculateWinnerFromMoves` does not fail: the two absent moves compare equal,
so it returns a spurious draw result naming player one as winner and player
two as loser with the draw flag set. -/
theorem calculateWinnerFromMoves_fresh_draw (p1 p2 : String) :
    RPS.calculateWinnerFromMoves (RPS.create p1 p2) =
      { winner := p1, loser := p2, draw := some true } := rfl

/-- C1: With both move slots defined, `calculateWinnerFromMoves` implements
cyclic dominance: equal choices give a draw flagged result (player one first),
and otherwise the owner of the dominant choice is the winner and the other
participant the loser, with no draw flag — for all 9 choice pairs. This holds
for the `src/unnamed/part_005` implementation unconditionally, and for the
frontend variant whenever neither participant id collides with its internal
`DRAW` sentinel string. -/
theorem calculateWinnerFromMoves_cyclic_dominance (p1 p2 : String) (a b : Answer) :
    (RPS.calculateWinnerFromMoves
        { playerOne := p1, playerTwo := p2, playerOneMove := some a,
          playerTwoMove := some b, winner := none } =
      (if a = b then { winner := p1, loser := p2, draw := some true }
       else if beats a b then { winner := p1, loser := p2, draw := none }
       else { winner := p2, loser := p1, draw := none } : RPSResult)) ∧
    (p1 ≠ DRAW → p2 ≠ DRAW →
      (FRPS.calculateWinnerFromMoves
          { status := GameStatus.started, playerOne := p1, playerTwo := p2,
            playerOneMove := some a, playerTwoMove := some b, winner := none }).2 =
        (if a = b then { winner := p1, loser := p2, draw := some true }
         else if beats a b then { winner := p1, loser := p2, draw := none }
         else { winner := p2, loser := p1, draw := none } : RPSResult)) := by
  constructor
  · cases a <;> cases b <;>
      by_cases h : p1 = p2 <;>
      simp [RPS.calculateWinnerFromMoves, beats, h]
  · intro h1 h2
    cases a <;> cases b <;>
      by_cases h : p1 = p2 <;>
      simp [FRPS.calculateWinnerFromMoves, beats, h, h1, h2]

/-- Witness for C1: Rock versus Scissors between "a" and "b" makes "a" the
winner and "b" the loser with no draw flag, in both implementations. -/
theorem calculateWinnerFromMoves_cyclic_dominance_witness :
    RPS.calculateWinnerFromMoves
        { playerOne := "a", playerTwo := "b", playerOneMove := some Answer.rock,
          playerTwoMove := some Answer.scissors, winner := none } =
      { winner := "a", loser := "b", draw := none } ∧
    (FRPS.calculateWinnerFromMoves
        { status := GameStatus.started, playerOne := "a", playerTwo := "b",
          playerOneMove := some Answer.rock, playerTwoMove := some Answer.scissors,
          winner := none }).2 =
      { winner := "a", loser := "b", draw := none } := by
  have h := calculateWinnerFromMoves_cyclic_dominance "a" "b" Answer.rock Answer.scissors
  exact ⟨h.1.trans (by decide), (h.2 (by decide) (by decide)).trans (by decide)⟩

/-- `updateFrom` never changes the participant ids. -/
theorem RPS.updateFrom_players (s : RPS) (m : RPSPlayerMove) :
    (RPS.updateFrom s m).playerOne = s.playerOne ∧
    (RPS.updateFrom s m).playerTwo = s.playerTwo := by
  unfold RPS.updateFrom
  split
  · exact ⟨rfl, rfl⟩
  · split
    · exact ⟨rfl, rfl⟩
    · exact ⟨rfl, rfl⟩

/-- Invariant of folding `updateFrom` over a message list, for a game whose
two participant ids differ: the ids are preserved, and each move slot is
defined exactly when it was already defined or some message in the list names
that participant. -/
theorem RPS.foldl_updateFrom_slots (ms : List RPSPlayerMove) (s : RPS)
    (hne : s.playerOne ≠ s.playerTwo) :
    (ms.foldl RPS.updateFrom s).playerOne = s.playerOne ∧
    (ms.foldl RPS.updateFrom s).playerTwo = s.playerTwo ∧
    (ms.foldl RPS.updateFrom s).playerOneMove.isSome =
      (s.playerOneMove.isSome || ms.any (fun m => m.player == s.playerOne)) ∧
    (ms.foldl RPS.updateFrom s).playerTwoMove.isSome =
      (s.playerTwoMove.isSome || ms.any (fun m => m.player == s.playerTwo)) := by
  induction ms generalizing s with
  | nil => simp
  | cons m ms ih =>
    obtain ⟨hp1, hp2⟩ := RPS.updateFrom_players s m
    have hne' : (RPS.updateFrom s m).playerOne ≠ (RPS.updateFrom s m).playerTwo := by
      rw [hp1, hp2]; exact hne
    obtain ⟨i1, i2, i3, i4⟩ := ih (RPS.updateFrom s m) hne'
    rw [hp1] at i1 i3
    rw [hp2] at i2 i4
    refine ⟨by simpa using i1, by simpa using i2, ?_, ?_⟩
    · simp only [List.foldl_cons, List.any_cons]
      rw [i3]
      by_cases h1 : m.player = s.playerOne
      · by_cases h2 : m.player = s.playerTwo
        · exact absurd (h1.symm.trans h2) hne
        · simp [RPS.updateFrom, h1, beq_iff_eq.mpr h1]
      · have e1 : (m.player == s.playerOne) = false := beq_eq_false_iff_ne.mpr h1
        simp only [e1, Bool.false_or]
        by_cases h2 : m.player = s.playerTwo
        · simp [RPS.updateFrom, h1, h2, Ne.symm hne]
        · simp [RPS.updateFrom, h1, h2]
    · simp only [List.foldl_cons, List.any_cons]
      rw [i4]
      by_cases h1 : m.player = s.playerOne
      · by_cases h2 : m.player = s.playerTwo
        · exact absurd (h1.symm.trans h2) hne
        · have e2 : (m.player == s.playerTwo) = false := beq_eq_false_iff_ne.mpr h2
          simp only [e2, Bool.false_or]
          simp [RPS.updateFrom, h1]
      · by_cases h2 : m.player = s.playerTwo
        · simp [RPS.updateFrom, h1, h2, beq_iff_eq.mpr h2, Ne.symm hne]
        · have e2 : (m.player == s.playerTwo) = false := beq_eq_false_iff_ne.mpr h2
          simp only [e2, Bool.false_or]
          simp [RPS.updateFrom, h1, h2]

/-- C2: `readyToComplete` is the pure predicate that both choice slots are
defined, and for a fresh game with distinct participants and an arbitrary
sequence of `updateFrom` submissions in any arrival order, it returns true
exactly when the sequence contains a submission from each participant. -/
theorem readyToComplete_pure_iff (p1 p2 : String) (hne : p1 ≠ p2)
    (ms : List RPSPlayerMove) :
    (∀ t : RPS, RPS.readyToComplete t =
      (t.playerOneMove.isSome && t.playerTwoMove.isSome)) ∧
    (RPS.readyToComplete (ms.foldl RPS.updateFrom (RPS.create p1 p2)) =
      (ms.any (fun m => m.player == p1) && ms.any (fun m => m.player == p2))) := by
  refine ⟨fun t => rfl, ?_⟩
  obtain ⟨-, -, h3, h4⟩ := RPS.foldl_updateFrom_slots ms (RPS.create p1 p2) hne
  simp only [RPS.readyToComplete]
  rw [h3, h4]
  simp [RPS.create]

/-- Witness for C2: with participants "a" and "b" and one submission from
each (opponent's arriving first), the game is ready to complete. -/
theorem readyToComplete_pure_iff_witness :
    ("a" : String) ≠ "b" ∧
    RPS.readyToComplete
        (([{ player := "b", opponent := "a", move := Answer.paper },
           { player := "a", opponent := "b", move := Answer.rock }] :
            List RPSPlayerMove).foldl RPS.updateFrom (RPS.create "a" "b")) =
      (([{ player := "b", opponent := "a", move := Answer.paper },
         { player := "a", opponent := "b", move := Answer.rock }] :
          List RPSPlayerMove).any (fun m => m.player == "a") &&
       ([{ player := "b", opponent := "a", move := Answer.paper },
         { player := "a", opponent := "b", move := Answer.rock }] :
          List RPSPlayerMove).any (fun m => m.player == "b")) :=
  ⟨by decide,
   (readyToComplete_pure_iff "a" "b" (by decide)
     [{ player := "b", opponent := "a", move := Answer.paper },
      { player := "a", opponent := "b", move := Answer.rock }]).2⟩

/-- C7: Submitting a choice for a participant of an active game overwrites
that participant's slot with the newer choice (last-write-wins, regardless of
any previously submitted choice) and leaves the opponent's slot unchanged, in
both `RPS.updateFrom` and the frontend variant's `selectMove`. -/
theorem updateFrom_last_write_wins (s : RPS) (f : FRPS) (m : RPSPlayerMove)
    (hs : s.playerOne ≠ s.playerTwo) (hf : f.playerOne ≠ f.playerTwo) :
    ((m.player = s.playerOne →
        RPS.updateFrom s m = { s with playerOneMove := some m.move }) ∧
     (m.player = s.playerTwo →
        RPS.updateFrom s m = { s with playerTwoMove := some m.move })) ∧
    ((m.player = f.playerOne →
        FRPS.selectMove f m.player m.move = { f with playerOneMove := some m.move }) ∧
     (m.player = f.playerTwo →
        FRPS.selectMove f m.player m.move = { f with playerTwoMove := some m.move })) := by
  refine ⟨⟨?_, ?_⟩, ?_, ?_⟩
  · intro h; simp [RPS.updateFrom, h]
  · intro h; simp [RPS.updateFrom, h, Ne.symm hs]
  · intro h; simp [FRPS.selectMove, h]
  · intro h; simp [FRPS.selectMove, h, hf]

/-- Witness for C7: player "a" resubmits paper over an earlier rock; the new
slot holds paper and the opponent's scissors slot is untouched. -/
theorem updateFrom_last_write_wins_witness :
    RPS.updateFrom
        { playerOne := "a", playerTwo := "b", playerOneMove := some Answer.rock,
          playerTwoMove := some Answer.scissors, winner := none }
        { player := "a", opponent := "b", move := Answer.paper } =
      { playerOne := "a", playerTwo := "b", playerOneMove := some Answer.paper,
        playerTwoMove := some Answer.scissors, winner := none } :=
  ((updateFrom_last_write_wins
      { playerOne := "a", playerTwo := "b", playerOneMove := some Answer.rock,
        playerTwoMove := some Answer.scissors, winner := none }
      { status := GameStatus.started, playerOne := "a", playerTwo := "b",
        playerOneMove := none, playerTwoMove := none, winner := none }
      { player := "a", opponent := "b", move := Answer.paper }
      (by decide) (by decide)).1).1 rfl

/-- C8: A submission whose player id is neither participant of the game is
silently ignored by `updateFrom`: the game state is returned exactly as it
was, with no error. -/
theorem updateFrom_unknown_player_noop (s : RPS) (m : RPSPlayerMove)
    (h1 : m.player ≠ s.playerOne) (h2 : m.player ≠ s.playerTwo) :
    RPS.updateFrom s m = s := by
  simp [RPS.updateFrom, h1, h2]

/-- Witness for C8: a move from stranger "c" leaves the "a" versus "b" game
untouched. -/
theorem updateFrom_unknown_player_noop_witness :
    RPS.updateFrom (RPS.create "a" "b")
        { player := "c", opponent := "a", move := Answer.rock } =
      RPS.create "a" "b" :=
  updateFrom_unknown_player_noop (RPS.create "a" "b")
    { player := "c", opponent := "a", move := Answer.rock }
    (by decide) (by decide)

/-- The data of a `PlayerController` as used by the roster and leaderboard
code: the stable player id and the numeric score. -/
structure PlayerC where
  id : String
  score : Int
deriving DecidableEq

/-- The slice of `TownController` state the contest and roster claims need:
the local user's id, the `_playersInternal` roster array, and the single
optional `_rpsGame` contest slot. -/
structure TownState where
  userID : String
  players : List PlayerC
  rpsGame : Option RPS
deriving DecidableEq

/-- Messages the controller emits on its socket, in emission order. -/
inductive OutMsg where
  | rpsPlayerMove (m : RPSPlayerMove)
  | rpsGameEnded (r : RPSResult)
  | rpsChallengeSent (c : RPSChallenge)
  | rpsGameChanged (c : RPSChallenge)
deriving DecidableEq

/-- `TownController._attemptToFinishGame` (`src/unnamed/part_003`, lines
536-542): if the given game exists and is ready to complete, compute the
result, emit `rpsGameEnded`, and clear the `_rpsGame` slot; otherwise do
nothing. Returns the new controller state and the emitted messages. -/
def attemptToFinishGame (s : TownState) (game : Option RPS) : TownState × List OutMsg :=
  match game with
  | some g =>
      if RPS.readyToComplete g then
        ({ s with rpsGame := none },
         [OutMsg.rpsGameEnded (RPS.calculateWinnerFromMoves g)])
      else (s, [])
  | none => (s, [])

/-- The `rpsPlayerMove` socket listener (`src/unnamed/part_003`, lines
511-516): if a contest instance is present, feed the move into it via
`updateFrom` and then attempt to finish it; with no instance the message is
ignored. -/
def onRpsPlayerMove (s : TownState) (m : RPSPlayerMove) : TownState × List OutMsg :=
  match s.rpsGame with
  | some g =>
      let g2 := RPS.updateFrom g m
      attemptToFinishGame { s with rpsGame := some g2 } (some g2)
  | none => (s, [])

/-- `TownController.submitMove` (`src/unnamed/part_003`, lines 571-580): only
when the move names the local user as player or opponent does it emit the
move outbound, apply it to the local game (if any), and attempt to finish;
otherwise nothing happens. -/
def submitMove (s : TownState) (m : RPSPlayerMove) : TownState × List OutMsg :=
  if m.opponent = s.userID ∨ m.player = s.userID then
    match s.rpsGame with
    | some g =>
        let g2 := RPS.updateFrom g m
        let r := attemptToFinishGame { s with rpsGame := some g2 } (some g2)
        (r.1, OutMsg.rpsPlayerMove m :: r.2)
    | none => (s, [OutMsg.rpsPlayerMove m])
  else (s, [])

/-- `TownController.startRPS` (`src/unnamed/part_003`, lines 610-624): the
`if (response)` test is on the challenge object itself and is always true;
the challenger and challengee are looked up in the roster, and when both are
found a new `RPS` game is installed in the `_rpsGame` slot (unconditionally
overwriting it), the challenge's response is set to true and re-emitted, and
the new game is returned; otherwise nothing changes. -/
def startRPS (s : TownState) (ch : RPSChallenge) : TownState × List OutMsg × Option RPS :=
  match s.players.find? (fun p => p.id == ch.challenger),
        s.players.find? (fun p => p.id == ch.challengee) with
  | some cr, some ce =>
      let newGame := RPS.create cr.id ce.id
      ({ s with rpsGame := some newGame },
       [OutMsg.rpsGameChanged { ch with response := some true }],
       some newGame)
  | _, _ => (s, [], none)

/-- The `playerJoined` socket listener (`src/unnamed/part_003`, lines
425-429): the new player is unconditionally appended to the roster
(`this.players.concat([newPlayerObj])`). -/
def applyJoin (roster : List PlayerC) (p : PlayerC) : List PlayerC :=
  roster ++ [p]

/-- The `playerDisconnect` socket listener (`src/unnamed/part_003`, lines
435-437): every roster entry whose id equals the disconnected player's id is
removed (`this.players.filter(eachPlayer => eachPlayer.id !== ...)`). -/
def applyLeave (roster : List PlayerC) (pid : String) : List PlayerC :=
  roster.filter (fun q => q.id != pid)

/-- Stable insertion step for descending score order, modelling the ordering
produced by `Array.prototype.sort` (stable since ES2019) with the comparator
`(a, b) => b.score - a.score`. -/
def insertByScoreDesc (p : PlayerC) : List PlayerC → List PlayerC
  | [] => [p]
  | q :: qs => if p.score < q.score then q :: insertByScoreDesc p qs else p :: q :: qs

/-- Stable sort by score descending (see `insertByScoreDesc`). -/
def sortByScoreDesc : List PlayerC → List PlayerC
  | [] => []
  | p :: ps => insertByScoreDesc p (sortByScoreDesc ps)

/-- `top10` inside `useLeaderboard` (`src/unnamed/part_003`, lines 1001-1004):
`players.sort(...)` sorts the caller's array in place and `slice(0, 10)`
copies the first ten entries. The first component is the contents of the
caller's array after the call (the mutated roster), the second the returned
leaderboard. -/
def top10 (players : List PlayerC) : List PlayerC × List PlayerC :=
  let sorted := sortByScoreDesc players
  (sorted, sorted.take 10)

/-- C3: Delivering the move that completes the pair resolves the contest
exactly once: the controller emits exactly one Contest Result (for the
updated game) and clears the contest slot, and delivering any further move
message to the resolved controller is a no-op emitting nothing. -/
theorem resolve_exactly_once (s : TownState) (g : RPS) (m : RPSPlayerMove)
    (hg : s.rpsGame = some g)
    (hready : RPS.readyToComplete (RPS.updateFrom g m) = true) :
    onRpsPlayerMove s m =
      ({ s with rpsGame := none },
       [OutMsg.rpsGameEnded (RPS.calculateWinnerFromMoves (RPS.updateFrom g m))]) ∧
    ∀ m' : RPSPlayerMove,
      onRpsPlayerMove { s with rpsGame := none } m' =
        ({ s with rpsGame := none }, []) := by
  constructor
  · simp [onRpsPlayerMove, hg, attemptToFinishGame, hready]
  · intro m'
    simp [onRpsPlayerMove]

/-- Witness for C3: "b" completes the pair against "a"'s rock with scissors;
one result is emitted, the slot is cleared, and redelivering the same move is
a no-op. -/
theorem resolve_exactly_once_witness :
    onRpsPlayerMove
        { userID := "a",
          players := [{ id := "a", score := 0 }, { id := "b", score := 0 }],
          rpsGame := some { playerOne := "a", playerTwo := "b",
                            playerOneMove := some Answer.rock,
                            playerTwoMove := none, winner := none } }
        { player := "b", opponent := "a", move := Answer.scissors } =
      ({ userID := "a",
         players := [{ id := "a", score := 0 }, { id := "b", score := 0 }],
         rpsGame := none },
       [OutMsg.rpsGameEnded
          (RPS.calculateWinnerFromMoves
            (RPS.updateFrom
              { playerOne := "a", playerTwo := "b",
                playerOneMove := some Answer.rock,
                playerTwoMove := none, winner := none }
              { player := "b", opponent := "a", move := Answer.scissors }))]) ∧
    ∀ m' : RPSPlayerMove,
      onRpsPlayerMove
          { userID := "a",
            players := [{ id := "a", score := 0 }, { id := "b", score := 0 }],
            rpsGame := none } m' =
        ({ userID := "a",
           players := [{ id := "a", score := 0 }, { id := "b", score := 0 }],
           rpsGame := none }, []) :=
  resolve_exactly_once
    { userID := "a",
      players := [{ id := "a", score := 0 }, { id := "b", score := 0 }],
      rpsGame := some { playerOne := "a", playerTwo := "b",
                        playerOneMove := some Answer.rock,
                        playerTwoMove := none, winner := none } }
    { playerOne := "a", playerTwo := "b", playerOneMove := some Answer.rock,
      playerTwoMove := none, winner := none }
    { player := "b", opponent := "a", move := Answer.scissors }
    rfl (by decide)

/-- C9: A move intent naming neither the local user as player nor as opponent
is rejected synchronously by `submitMove`: nothing is emitted outbound and
the controller state is unchanged. -/
theorem submitMove_nonparticipant_rejected (s : TownState) (m : RPSPlayerMove)
    (h1 : m.player ≠ s.userID) (h2 : m.opponent ≠ s.userID) :
    submitMove s m = (s, []) := by
  simp [submitMove, h1, h2]

/-- Witness for C9: a move between "b" and "c" submitted on "a"'s controller
is dropped with no emission and no state change. -/
theorem submitMove_nonparticipant_rejected_witness :
    submitMove
        { userID := "a",
          players := [{ id := "a", score := 0 }],
          rpsGame := none }
        { player := "b", opponent := "c", move := Answer.rock } =
      ({ userID := "a",
         players := [{ id := "a", score := 0 }],
         rpsGame := none }, []) :=
  submitMove_nonparticipant_rejected
    { userID := "a", players := [{ id := "a", score := 0 }], rpsGame := none }
    { player := "b", opponent := "c", move := Answer.rock }
    (by decide) (by decide)

/-- Counterexample to C4: with a contest between "a" and "b" occupying the
slot and all of "a", "b", "c" in the roster, `startRPS` on a challenge from
third party "c" to "a" is not rejected — it silently replaces the unresolved
"a"/"b" instance with a fresh "c"/"a" game. -/
theorem startRPS_slot_counterexample :
    (startRPS
        { userID := "a",
          players := [{ id := "a", score := 0 }, { id := "b", score := 0 },
                      { id := "c", score := 0 }],
          rpsGame := some { playerOne := "a", playerTwo := "b",
                            playerOneMove := some Answer.rock,
                            playerTwoMove := none, winner := none } }
        { challenger := "c", challengee := "a", response := none }).1.rpsGame =
      some (RPS.create "c" "a") ∧
    (startRPS
        { userID := "a",
          players := [{ id := "a", score := 0 }, { id := "b", score := 0 },
                      { id := "c", score := 0 }],
          rpsGame := some { playerOne := "a", playerTwo := "b",
                            playerOneMove := some Answer.rock,
                            playerTwoMove := none, winner := none } }
        { challenger := "c", challengee := "a", response := none }).1.rpsGame ≠
      some { playerOne := "a", playerTwo := "b",
             playerOneMove := some Answer.rock,
             playerTwoMove := none, winner := none } := by
  constructor
  · rfl
  · decide

/-- C4 as amended: `startRPS` performs no slot-occupancy check at all —
whenever both the challenger and the challengee are found in the roster it
installs a new contest instance between them, silently replacing whatever
unresolved instance the slot held. -/
theorem startRPS_installs_new_game (s : TownState) (ch : RPSChallenge)
    (cr ce : PlayerC)
    (hcr : s.players.find? (fun p => p.id == ch.challenger) = some cr)
    (hce : s.players.find? (fun p => p.id == ch.challengee) = some ce) :
    (startRPS s ch).1.rpsGame = some (RPS.create cr.id ce.id) ∧
    (startRPS s ch).2.1 =
      [OutMsg.rpsGameChanged { ch with response := some true }] := by
  simp [startRPS, hcr, hce]

/-- Witness for C4's amended claim: the concrete replacement from the
counterexample scenario, derived from the general theorem. -/
theorem startRPS_installs_new_game_witness :
    (startRPS
        { userID := "a",
          players := [{ id := "a", score := 0 }, { id := "b", score := 0 },
                      { id := "c", score := 0 }],
          rpsGame := some { playerOne := "a", playerTwo := "b",
                            playerOneMove := some Answer.rock,
                            playerTwoMove := none, winner := none } }
        { challenger := "c", challengee := "a", response := none }).1.rpsGame =
      some (RPS.create "c" "a") ∧
    (startRPS
        { userID := "a",
          players := [{ id := "a", score := 0 }, { id := "b", score := 0 },
                      { id := "c", score := 0 }],
          rpsGame := some { playerOne := "a", playerTwo := "b",
                            playerOneMove := some Answer.rock,
                            playerTwoMove := none, winner := none } }
        { challenger := "c", challengee := "a", response := none }).2.1 =
      [OutMsg.rpsGameChanged
        { challenger := "c", challengee := "a", response := some true }] :=
  startRPS_installs_new_game
    { userID := "a",
      players := [{ id := "a", score := 0 }, { id := "b", score := 0 },
                  { id := "c", score := 0 }],
      rpsGame := some { playerOne := "a", playerTwo := "b",
                        playerOneMove := some Answer.rock,
                        playerTwoMove := none, winner := none } }
    { challenger := "c", challengee := "a", response := none }
    { id := "c", score := 0 } { id := "a", score := 0 }
    (by decide) (by decide)

/-- C5 is a code bug: on the roster ["alice" with score 0, "bob" with score
5], the leaderboard's `top10` reorders the underlying roster array in place
(JavaScript `Array.prototype.sort` mutates its receiver, and it is called on
the live `_playersInternal` array), so the order observed by other consumers
of the roster changes. -/
theorem top10_mutates_roster_at_failing_input :
    (top10 [{ id := "alice", score := 0 }, { id := "bob", score := 5 }]).1 ≠
      [{ id := "alice", score := 0 }, { id := "bob", score := 5 }] ∧
    (top10 [{ id := "alice", score := 0 }, { id := "bob", score := 5 }]).1 =
      [{ id := "bob", score := 5 }, { id := "alice", score := 0 }] := by
  constructor
  · decide
  · rfl

/-- Counterexample to C6: joining an identity already present is not a no-op
— `applyJoin` appends unconditionally, duplicating the entry — and the
subsequent `applyLeave` then removes both copies, so join-then-leave does not
return the roster to its prior set either. -/
theorem applyJoin_duplicate_counterexample :
    applyJoin [{ id := "a", score := 0 }] { id := "a", score := 0 } ≠
      [{ id := "a", score := 0 }] ∧
    applyLeave (applyJoin [{ id := "a", score := 0 }] { id := "a", score := 0 }) "a" ≠
      [{ id := "a", score := 0 }] := by
  constructor
  · decide
  · decide

/-- C6 as amended: `applyJoin` appends unconditionally (duplicate delivery
duplicates the entry rather than being idempotent); apply-join followed by
apply-leave for the same identity restores the prior roster exactly when that
identity was not already present, since `applyLeave` removes every entry with
the identity and keeps the rest in order. -/
theorem applyJoin_applyLeave_restores (roster : List PlayerC) (p : PlayerC)
    (h : ∀ q ∈ roster, q.id ≠ p.id) :
    applyLeave (applyJoin roster p) p.id = roster := by
  have h1 : roster.filter (fun q => q.id != p.id) = roster :=
    List.filter_eq_self.mpr (fun q hq => by simp [h q hq])
  simp [applyJoin, applyLeave, List.filter_append, h1]

/-- Witness for C6's amended claim: joining "a" into the roster ["b"] and
then removing "a" restores ["b"]. -/
theorem applyJoin_applyLeave_restores_witness :
    applyLeave (applyJoin [{ id := "b", score := 3 }] { id := "a", score := 0 }) "a" =
      [{ id := "b", score := 3 }] :=
  applyJoin_applyLeave_restores [{ id := "b", score := 3 }] { id := "a", score := 0 }
    (by decide)
